import Mathlib

/-!
Verification of the data-ingestion and query core of the pokemon-tcg-data
repository (`src/database.ts`, `src/server-db.ts`).

Modelling conventions (shallow embedding):
* SQLite TEXT / INTEGER columns that may be NULL are `Option String` /
  `Option Int`; NOT NULL text columns that the raw data might still omit are
  kept as `Option String` so that constraint violations can be modelled.
* Columns holding JSON blobs (`JSON.stringify` at insert, `JSON.parse` at
  read) are modelled by their decoded values: `JSON.parse (JSON.stringify v)`
  is the identity on the values that occur here, so carrying the decoded
  value through the store is faithful.  Opaque nested objects (abilities,
  attacks, ...) are carried as opaque `String` payloads; JSON object maps
  (legalities, images) as association lists `Obj`.
* A JavaScript value that is absent (`undefined`) or `null` is `none`;
  JavaScript truthiness on strings (`"" ` is falsy) is `jsTruthy`.
* `better-sqlite3` binds a missing optional field as SQL NULL, and SQLite
  stores a NaN double (from `parseInt` on a malformed string) as NULL.
-/

/-- JSON object map carried opaquely through a TEXT column. -/
abbrev Obj := List (String × String)

/-- JavaScript truthiness of an optional string: `undefined`, `null` and the
empty string are falsy. -/
def jsTruthy : Option String → Bool
  | none => false
  | some s => s ≠ ""

/-- Characters before the first occurrence of `sep`. -/
def takeUntilChar (sep : Char) : List Char → List Char
  | [] => []
  | c :: cs => if c = sep then [] else c :: takeUntilChar sep cs

/-- `s.split(sep)[0]` in JavaScript (single-character separator): the part
of `s` before the first occurrence of `sep` (all of `s` when `sep` does not
occur). -/
def jsSplitHead (s : String) (sep : Char) : String :=
  ⟨takeUntilChar sep s.data⟩

/-- The character lists obtained by splitting at every occurrence of `sep`. -/
def splitAtChar (sep : Char) : List Char → List (List Char)
  | [] => [[]]
  | c :: cs =>
    if c = sep then [] :: splitAtChar sep cs
    else
      match splitAtChar sep cs with
      | [] => [[c]]
      | p :: ps => (c :: p) :: ps

/-- `s.split(sep)` in JavaScript (single-character separator): always a
non-empty list; `""` splits to `[""]`. -/
def jsSplit (s : String) (sep : Char) : List String :=
  (splitAtChar sep s.data).map (fun cs => ⟨cs⟩)

/-- JavaScript `parseInt` restricted to the shapes that occur here: the
longest leading run of decimal digits, `NaN` (= `none`) when there is none. -/
def jsParseInt (s : String) : Option Int :=
  let ds := s.data.takeWhile Char.isDigit
  if ds.isEmpty then none
  else some (Int.ofNat (ds.foldl (fun a c => a * 10 + (c.toNat - 48)) 0))

/-! ## Raw source records (`src/types.ts` shapes, as read from JSON) -/

/-- The nested `set` object of a raw card record.  `migrateCards` reads only
its `id`; `name` and `total` witness that the other fields are not stored. -/
structure RawSetRef where
  id : String
  name : Option String
  total : Option Int
deriving DecidableEq

/-- Raw card record (`PokemonCard` in `src/types.ts`); exactly the fields
`migrateCards` reads.  Absent optional fields are `none`. -/
structure PokemonCard where
  id : String
  name : String
  supertype : Option String
  subtypes : Option (List String)
  level : Option String
  hp : Option String
  types : Option (List String)
  evolvesFrom : Option String
  evolvesTo : Option (List String)
  abilities : Option (List String)
  attacks : Option (List String)
  weaknesses : Option (List String)
  resistances : Option (List String)
  retreatCost : Option (List String)
  convertedRetreatCost : Option Int
  number : Option String
  artist : Option String
  rarity : Option String
  flavorText : Option String
  nationalPokedexNumbers : Option (List Nat)
  legalities : Option Obj
  images : Option Obj
  rules : Option (List String)
  set : Option RawSetRef
deriving DecidableEq

/-- Raw set record (`SetInfo` in `src/types.ts`). -/
structure SetInfo where
  id : String
  name : Option String
  series : Option String
  printedTotal : Option Int
  total : Option Int
  legalities : Option Obj
  ptcgoCode : Option String
  releaseDate : Option String
  updatedAt : Option String
  images : Option Obj
deriving DecidableEq

/-! ## Stored rows (the relational schema of `initializeSchema`) -/

/-- A row of the `sets` table. -/
structure SetRow where
  id : String
  name : Option String
  series : Option String
  printedTotal : Option Int
  total : Option Int
  legalities : Option Obj
  ptcgoCode : Option String
  releaseDate : Option String
  updatedAt : Option String
  images : Option Obj
  year : Option String
deriving DecidableEq

/-- A row of the `cards` table. -/
structure CardRow where
  id : String
  name : String
  supertype : Option String
  subtypes : List String
  level : Option String
  hp : Option String
  types : List String
  evolvesFrom : Option String
  evolvesTo : List String
  abilities : List String
  attacks : List String
  weaknesses : List String
  resistances : List String
  retreatCost : List String
  convertedRetreatCost : Option Int
  number : Option String
  artist : Option String
  rarity : Option String
  flavorText : Option String
  nationalPokedexNumbers : List Nat
  legalities : Option Obj
  images : Option Obj
  rules : List String
  setId : Option String
deriving DecidableEq

/-! ## Record normalisation (the loop bodies of `migrateSets`/`migrateCards`) -/

/-- Year derivation in `migrateSets`:
`set.releaseDate ? set.releaseDate.split("/")[0] : null`. -/
def deriveYear (releaseDate : Option String) : Option String :=
  if jsTruthy releaseDate then some (jsSplitHead (releaseDate.getD "") '/') else none

/-- One iteration of the `migrateSets` insert loop: the stored row for a raw
set record. -/
def normalizeSet (s : SetInfo) : SetRow :=
  { id := s.id
    name := s.name
    series := s.series
    printedTotal := s.printedTotal
    total := s.total
    legalities := s.legalities
    ptcgoCode := s.ptcgoCode
    releaseDate := s.releaseDate
    updatedAt := s.updatedAt
    images := s.images
    year := deriveYear s.releaseDate }

/-- `setId` computation in `migrateCards`:
`let setId = card.set?.id; if (!setId && card.id) setId = card.id.split("-")[0]`.
Note `!setId` is also true when the nested set's id is the empty string. -/
def computeSetId (c : PokemonCard) : Option String :=
  let s0 := c.set.map (fun s => s.id)
  if !(jsTruthy s0) && c.id ≠ "" then some (jsSplitHead c.id '-') else s0

/-- One iteration of the `migrateCards` insert loop: the stored row for a raw
card record (absent arrays default to `[]`, per `JSON.stringify(x || [])`). -/
def normalizeCard (c : PokemonCard) : CardRow :=
  { id := c.id
    name := c.name
    supertype := c.supertype
    subtypes := c.subtypes.getD []
    level := c.level
    hp := c.hp
    types := c.types.getD []
    evolvesFrom := c.evolvesFrom
    evolvesTo := c.evolvesTo.getD []
    abilities := c.abilities.getD []
    attacks := c.attacks.getD []
    weaknesses := c.weaknesses.getD []
    resistances := c.resistances.getD []
    retreatCost := c.retreatCost.getD []
    convertedRetreatCost := c.convertedRetreatCost
    number := c.number
    artist := c.artist
    rarity := c.rarity
    flavorText := c.flavorText
    nationalPokedexNumbers := c.nationalPokedexNumbers.getD []
    legalities := c.legalities
    images := c.images
    rules := c.rules.getD []
    setId := computeSetId c }

/-! ## Row → record transform (`transformCardRow`) and the card query -/

/-- The nested `set` object built by `transformCardRow`.  Fields are `none`
when the corresponding joined column is SQL NULL; `images` is always a
decoded object because of the `|| '{}'` default (`none` would be JS null). -/
structure CardSetOut where
  id : Option String
  name : Option String
  series : Option String
  total : Int
  releaseDate : Option String
  images : Option Obj
  year : Option String
deriving DecidableEq

/-- The structured card record produced by `transformCardRow`. -/
structure CardOut where
  id : String
  name : String
  supertype : Option String
  subtypes : List String
  level : Option String
  hp : Option String
  types : List String
  evolvesFrom : Option String
  evolvesTo : List String
  abilities : List String
  attacks : List String
  weaknesses : List String
  resistances : List String
  retreatCost : List String
  convertedRetreatCost : Option Int
  number : Option String
  artist : Option String
  rarity : Option String
  flavorText : Option String
  nationalPokedexNumbers : List Nat
  legalities : Obj
  images : Obj
  rules : List String
  set : CardSetOut
deriving DecidableEq

/-- `transformCardRow` applied to a joined row: the card row `c` together
with the (optional) `sets` row matched by the LEFT JOIN. -/
def transformCardRow (row : CardRow) (srow : Option SetRow) : CardOut :=
  { id := row.id
    name := row.name
    supertype := row.supertype
    subtypes := row.subtypes
    level := row.level
    hp := row.hp
    types := row.types
    evolvesFrom := row.evolvesFrom
    evolvesTo := row.evolvesTo
    abilities := row.abilities
    attacks := row.attacks
    weaknesses := row.weaknesses
    resistances := row.resistances
    retreatCost := row.retreatCost
    convertedRetreatCost := row.convertedRetreatCost
    number := row.number
    artist := row.artist
    rarity := row.rarity
    flavorText := row.flavorText
    nationalPokedexNumbers := row.nationalPokedexNumbers
    legalities := row.legalities.getD []
    images := row.images.getD []
    rules := row.rules
    set :=
      { id := row.setId
        name := srow.bind (fun s => s.name)
        series := srow.bind (fun s => s.series)
        total := 0
        releaseDate := srow.bind (fun s => s.releaseDate)
        images := some ((srow.bind (fun s => s.images)).getD [])
        year := srow.bind (fun s => s.year) } }

/-- `LEFT JOIN sets s ON c.setId = s.id`: the matching `sets` row, if any
(`sets.id` is the primary key, so at most one row matches; SQL `NULL = s.id`
matches nothing). -/
def joinSet (sets : List SetRow) (c : CardRow) : Option SetRow :=
  sets.find? (fun s => some s.id == c.setId)

/-- The filter argument of `getAllCards`.  An absent (`undefined`) group and
an empty group behave identically in the code (`filters?.g?.length` is falsy
for both), so both are the empty list here. -/
structure Filters where
  types : List String := []
  subtypes : List String := []
  years : List String := []
  sets : List String := []
  rarities : List String := []
deriving DecidableEq

/-- The list of WHERE conditions assembled by `getAllCards`; each condition
is evaluated on a joined row.  `EXISTS (SELECT 1 FROM json_each(col) WHERE
value IN (...))` holds iff some element of the decoded array is in the
provided value list; `col IN (...)` is false on SQL NULL. -/
def filterConds (f : Filters) : List (CardRow → Option SetRow → Bool) :=
  (if f.types.isEmpty then [] else
    [fun c _ => c.types.any (fun t => f.types.contains t)]) ++
  (if f.subtypes.isEmpty then [] else
    [fun c _ => c.subtypes.any (fun t => f.subtypes.contains t)]) ++
  (if f.years.isEmpty then [] else
    [fun _ s => match s.bind (fun r => r.year) with
      | some y => f.years.contains y
      | none => false]) ++
  (if f.sets.isEmpty then [] else
    [fun c _ => match c.setId with
      | some sid => f.sets.contains sid
      | none => false]) ++
  (if f.rarities.isEmpty then [] else
    [fun c _ => match c.rarity with
      | some r => f.rarities.contains r
      | none => false])

/-- `PokemonDatabase.getAllCards`: LEFT JOIN each card to its set, keep the
rows satisfying every assembled condition, and transform each kept row. -/
def getAllCards (cards : List CardRow) (sets : List SetRow) (f : Filters) :
    List CardOut :=
  (cards.filter (fun c => (filterConds f).all (fun p => p c (joinSet sets c)))).map
    (fun c => transformCardRow c (joinSet sets c))

/-- The filter predicate as the specification words it: a conjunction over
the present predicate groups, each group a disjunctive membership test; an
absent/empty group imposes no constraint.  (Second definition for the
refinement claim C1, written from the spec, to be compared with
`getAllCards`.) -/
def specCardMatches (f : Filters) (sets : List SetRow) (c : CardRow) : Bool :=
  (f.types.isEmpty || c.types.any (fun t => f.types.contains t)) &&
  (f.subtypes.isEmpty || c.subtypes.any (fun t => f.subtypes.contains t)) &&
  (f.years.isEmpty ||
    (match (joinSet sets c).bind (fun r => r.year) with
      | some y => f.years.contains y
      | none => false)) &&
  (f.sets.isEmpty ||
    (match c.setId with
      | some sid => f.sets.contains sid
      | none => false)) &&
  (f.rarities.isEmpty ||
    (match c.rarity with
      | some r => f.rarities.contains r
      | none => false))

/-! ## Concrete records used as witnesses and counterexamples -/

/-- A raw card record with every optional field absent. -/
def blankCard : PokemonCard :=
  { id := "", name := "", supertype := none, subtypes := none, level := none
    hp := none, types := none, evolvesFrom := none, evolvesTo := none
    abilities := none, attacks := none, weaknesses := none, resistances := none
    retreatCost := none, convertedRetreatCost := none, number := none
    artist := none, rarity := none, flavorText := none
    nationalPokedexNumbers := none, legalities := none, images := none
    rules := none, set := none }

/-- A raw set record with every optional field absent. -/
def blankSetInfo : SetInfo :=
  { id := "", name := none, series := none, printedTotal := none, total := none
    legalities := none, ptcgoCode := none, releaseDate := none
    updatedAt := none, images := none }

/-- A stored card row with every optional field NULL and every array empty. -/
def blankCardRow : CardRow :=
  { id := "", name := "", supertype := none, subtypes := [], level := none
    hp := none, types := [], evolvesFrom := none, evolvesTo := []
    abilities := [], attacks := [], weaknesses := [], resistances := []
    retreatCost := [], convertedRetreatCost := none, number := none
    artist := none, rarity := none, flavorText := none
    nationalPokedexNumbers := [], legalities := none, images := none
    rules := [], setId := none }

/-- Raw card whose nested set reference is present but carries an empty id
(C3): JavaScript `!setId` is true on `""`, so the derivation overrides it. -/
def cexCard3 : PokemonCard :=
  { blankCard with id := "base1-4", set := some ⟨"", none, none⟩ }

/-- C3 witness: card without a nested set reference. -/
def witCard3a : PokemonCard := { blankCard with id := "base1-4" }

/-- C3 witness: card with a nested set reference with non-empty id. -/
def witCard3b : PokemonCard :=
  { blankCard with id := "xy7-54", set := some ⟨"xy7", none, none⟩ }

/-- Raw set whose releaseDate is present but empty (C9): falsy in JS, so the
stored year is NULL rather than the empty prefix. -/
def cexSet9 : SetInfo := { blankSetInfo with releaseDate := some "" }

/-- C9 witness: the spec's own example release date. -/
def witSet9 : SetInfo := { blankSetInfo with releaseDate := some "2023/03/31" }

/-- Stored card row whose `setId` matches no row of the `sets` table (C10). -/
def cexCardRow10 : CardRow :=
  { blankCardRow with id := "zz-1", name := "Lost", setId := some "zz" }

/-- The full normalize → store → transform round trip of one raw card,
joined against the store produced by migrating one raw set (C8). -/
def roundTripOut (c : PokemonCard) (s : SetInfo) : CardOut :=
  transformCardRow (normalizeCard c) (joinSet [normalizeSet s] (normalizeCard c))

/-- C8 counterexample raw card: its nested set reference carries a total. -/
def cexCard8 : PokemonCard :=
  { blankCard with
    id := "base1-4"
    name := "Pika"
    set := some ⟨"base1", some "Base", some 100⟩ }

/-- C8 counterexample raw set: the migrated `sets` row for the card's set. -/
def cexSet8 : SetInfo :=
  { blankSetInfo with id := "base1", name := some "Base", total := some 102 }

/-! ## External reference-data records and rows -/

/-- Raw type record from the external types dataset. -/
structure TypeData where
  id : String
  name : Option String
  color : Option String
  isCanonical : Bool
deriving DecidableEq

/-- A row of the `pokemon_types` table (`isCanonical ? 1 : 0`). -/
structure TypeRow where
  id : String
  name : Option String
  color : Option String
  isCanonical : Int
deriving DecidableEq

/-- The stored row for a raw type record (`migratePokemonTypes` loop body). -/
def normalizeType (t : TypeData) : TypeRow :=
  { id := t.id, name := t.name, color := t.color
    isCanonical := if t.isCanonical then 1 else 0 }

/-- Raw move record from the external moves dataset. -/
structure MoveData where
  id : String
  name : Option String
  psName : Option String
  generation : Option Int
  desc : Option String
  shortDesc : Option String
  type : Option String
  power : Option Int
  accuracy : Option Int
  pp : Option Int
  category : Option String
  priority : Option Int
  isZ : Bool
  isGmax : Bool
deriving DecidableEq

/-- A row of the `pokemon_moves` table. -/
structure MoveRow where
  id : String
  name : Option String
  psName : Option String
  generation : Option Int
  description : Option String
  shortDesc : Option String
  type : Option String
  power : Option Int
  accuracy : Option Int
  pp : Option Int
  category : Option String
  priority : Option Int
  isZ : Int
  isGmax : Int
deriving DecidableEq

/-- The stored row for a raw move record (`migratePokemonMoves` loop body). -/
def normalizeMove (m : MoveData) : MoveRow :=
  { id := m.id, name := m.name, psName := m.psName, generation := m.generation
    description := m.desc, shortDesc := m.shortDesc, type := m.type
    power := m.power, accuracy := m.accuracy, pp := m.pp
    category := m.category, priority := m.priority
    isZ := if m.isZ then 1 else 0, isGmax := if m.isGmax then 1 else 0 }

/-- Raw ability record from the external abilities dataset. -/
structure AbilityData where
  id : String
  name : Option String
  desc : Option String
  shortDesc : Option String
  generation : Option Int
deriving DecidableEq

/-- A row of the `pokemon_abilities` table. -/
structure AbilityRow where
  id : String
  name : Option String
  description : Option String
  shortDesc : Option String
  generation : Option Int
deriving DecidableEq

/-- The stored row for a raw ability record. -/
def normalizeAbility (a : AbilityData) : AbilityRow :=
  { id := a.id, name := a.name, description := a.desc
    shortDesc := a.shortDesc, generation := a.generation }

/-- Raw species record from the external species dataset.  `height`/`weight`
are REAL columns; the code only carries them, so they are modelled by an
opaque integer payload. -/
structure SpeciesData where
  nationalDexNumber : Option Int
  id : Int
  name : Option String
  types : Option (List String)
  abilities : Option (List String)
  hiddenAbilities : Option (List String)
  baseStats : Option Obj
  height : Option Int
  weight : Option Int
  generation : Option Int
  evolutionChain : Option Obj
deriving DecidableEq

/-- A row of the `pokemon_species` table. -/
structure SpeciesRow where
  id : Int
  name : Option String
  types : List String
  abilities : List String
  hiddenAbilities : List String
  baseStats : Obj
  height : Option Int
  weight : Option Int
  generation : Option Int
  evolutionChain : Obj
deriving DecidableEq

/-- JavaScript `a || b` on numbers (`0` is falsy), as used for the species
primary key `pkmn.nationalDexNumber || pkmn.id`. -/
def jsOrInt (a : Option Int) (b : Int) : Int :=
  match a with
  | some n => if n ≠ 0 then n else b
  | none => b

/-- The stored row (and its key) for a raw species record. -/
def normalizeSpecies (p : SpeciesData) : Int × SpeciesRow :=
  (jsOrInt p.nationalDexNumber p.id,
   { id := jsOrInt p.nationalDexNumber p.id
     name := p.name
     types := p.types.getD []
     abilities := p.abilities.getD []
     hiddenAbilities := p.hiddenAbilities.getD []
     baseStats := p.baseStats.getD []
     height := p.height
     weight := p.weight
     generation := p.generation
     evolutionChain := p.evolutionChain.getD [] })

/-! ## Pokedex records, rows and the entry-URL parser -/

/-- One element of `pokedexData.pokemon_entries`: `pokemon_species` is an
object with a `name` and a URL-shaped `url`. -/
structure EntryData where
  entry_number : Option Int
  speciesUrl : String
  speciesName : Option String
deriving DecidableEq

/-- Raw pokedex resource as fetched from the paginated API;
`region` models `pokedexData.region?.name || null`. -/
structure PokedexData where
  id : Int
  name : Option String
  descriptions : Option (List String)
  names : Option (List String)
  is_main_series : Bool
  region : Option String
  pokemon_entries : List EntryData
deriving DecidableEq

/-- A row of the `pokedexes` table. -/
structure PokedexRow where
  id : Int
  name : Option String
  descriptions : List String
  names : List String
  isMainSeries : Int
  region : Option String
deriving DecidableEq

/-- A row of the `pokedex_entries` table; `id` is the AUTOINCREMENT primary
key, which the insert statement never supplies. -/
structure PokedexEntryRow where
  id : Nat
  pokedexId : Int
  entryNumber : Option Int
  pokemonSpeciesId : Option Int
  pokemonSpeciesName : Option String
deriving DecidableEq

/-- The stored row for a raw pokedex resource. -/
def normalizePokedex (pd : PokedexData) : PokedexRow :=
  { id := pd.id, name := pd.name
    descriptions := pd.descriptions.getD []
    names := pd.names.getD []
    isMainSeries := if pd.is_main_series then 1 else 0
    region := pd.region }

/-- `parseInt(entry.pokemon_species.url.split('/').slice(-2, -1)[0])`: the
second-to-last segment of the URL parsed as an integer; `slice(-2,-1)` of a
list shorter than 2 is empty, so `parseInt(undefined)` gives NaN (`none`),
which SQLite stores as NULL. -/
def parseSpeciesId (url : String) : Option Int :=
  let parts := jsSplit url '/'
  if 2 ≤ parts.length then (parts[parts.length - 2]?).bind jsParseInt else none

/-- The entry row built for one pokedex entry, given the autoincrement id it
will receive. -/
def normalizeEntry (pokedexId : Int) (eid : Nat) (e : EntryData) : PokedexEntryRow :=
  { id := eid, pokedexId := pokedexId, entryNumber := e.entry_number
    pokemonSpeciesId := parseSpeciesId e.speciesUrl
    pokemonSpeciesName := e.speciesName }

/-- The entries-insert loop of one pokedex: appends one row per entry,
consuming autoincrement ids from `nextId`.  (An `INSERT OR REPLACE` without
the primary key never conflicts, so every insert appends a fresh row.) -/
def insertEntries (pokedexId : Int) (es : List EntryData)
    (entries : List PokedexEntryRow) (nextId : Nat) :
    List PokedexEntryRow × Nat :=
  es.foldl (fun a e => (a.1 ++ [normalizeEntry pokedexId a.2 e], a.2 + 1))
    (entries, nextId)

/-! ## Deck files -/

/-- One deck object of a deck file; `cards` and `raw` are opaque JSON
payloads (`raw` stands for the whole deck object, used by the
`deck.cards || deck` fallback). -/
structure RawDeck where
  id : Option String
  name : Option String
  cards : Option String
  raw : String
deriving DecidableEq

/-- The parsed content of one deck file: a JSON array of decks, or any other
JSON value (kept opaque). -/
inductive DeckContent where
  | arr (ds : List RawDeck)
  | single (raw : String)
deriving DecidableEq

/-- One deck file: its basename (without `.json`) and parsed content. -/
structure DeckFile where
  base : String
  content : DeckContent
deriving DecidableEq

/-- A row of the `decks` table. -/
structure DeckRow where
  id : String
  name : String
  setId : String
  cards : String
deriving DecidableEq

/-- JavaScript `a || b` on an optional string. -/
def jsOrStr (o : Option String) (d : String) : String :=
  match o with
  | some s => if s ≠ "" then s else d
  | none => d

/-- The deck normalisation of `migrateDecks` for one file. -/
def normalizeDeckFile (f : DeckFile) : List DeckRow :=
  match f.content with
  | .arr ds =>
    ds.mapIdx (fun i d =>
      { id := jsOrStr d.id (f.base ++ "-deck-" ++ toString i)
        name := jsOrStr d.name (f.base ++ " Deck " ++ toString (i + 1))
        setId := f.base
        cards := d.cards.getD d.raw })
  | .single raw =>
    [{ id := f.base ++ "-deck", name := f.base ++ " Deck"
       setId := f.base, cards := raw }]

/-- The insert-side fallbacks of the `insertDecks` loop body
(`deck.id || setId-deck`, `deck.name || 'Unknown Deck'`). -/
def insertDeckRow (d : DeckRow) : String × DeckRow :=
  let idv := if d.id ≠ "" then d.id else d.setId ++ "-deck"
  let namev := if d.name ≠ "" then d.name else "Unknown Deck"
  (idv, { d with id := idv, name := namev })

/-! ## The store and the migration orchestrator -/

/-- A table keyed by its primary key.  `INSERT OR REPLACE` on a table whose
primary key is always supplied is exactly an update of this map. -/
def Table (κ α : Type) := κ → Option α

/-- `INSERT OR REPLACE` of one row with primary key `k`. -/
def upsertT [DecidableEq κ] (k : κ) (v : α) (t : Table κ α) : Table κ α :=
  fun k' => if k' = k then some v else t k'

/-- A batch of upserts, in order. -/
def upsertAllT [DecidableEq κ] (xs : List (κ × α)) (t : Table κ α) : Table κ α :=
  xs.foldl (fun a p => upsertT p.1 p.2 a) t

/-- The whole relational store.  `pokedexEntries` is kept as a row list with
its autoincrement counter because its primary key is generated, not
supplied. -/
structure Store where
  sets : Table String SetRow
  cards : Table String CardRow
  decks : Table String DeckRow
  pokemonTypes : Table String TypeRow
  pokemonMoves : Table String MoveRow
  pokemonAbilities : Table String AbilityRow
  pokemonSpecies : Table Int SpeciesRow
  pokedexes : Table Int PokedexRow
  pokedexEntries : List PokedexEntryRow
  nextEntryId : Nat

/-- The store of a freshly created database (schema only). -/
def emptyStore : Store :=
  { sets := fun _ => none, cards := fun _ => none, decks := fun _ => none
    pokemonTypes := fun _ => none, pokemonMoves := fun _ => none
    pokemonAbilities := fun _ => none, pokemonSpecies := fun _ => none
    pokedexes := fun _ => none, pokedexEntries := [], nextEntryId := 1 }

/-- The local files read by the migration. -/
structure SourceData where
  sets : List SetInfo
  cards : List PokemonCard
  deckFiles : List DeckFile

/-- The outcomes of the external fetches performed by the migration; the
pokedex fetch yields a list of per-pokedex fetch outcomes. -/
structure FetchData where
  typesFetch : Except String (List TypeData)
  movesFetch : Except String (List MoveData)
  abilitiesFetch : Except String (List AbilityData)
  speciesFetch : Except String (List SpeciesData)
  pokedexFetch : Except String (List (Except String PokedexData))

/-- `migrateSets`. -/
def migrateSetsStep (ss : List SetInfo) (st : Store) : Store :=
  { st with sets := upsertAllT (ss.map (fun s => (s.id, normalizeSet s))) st.sets }

/-- `migrateCards`. -/
def migrateCardsStep (cs : List PokemonCard) (st : Store) : Store :=
  { st with cards := upsertAllT (cs.map (fun c => (c.id, normalizeCard c))) st.cards }

/-- `migrateDecks`. -/
def migrateDecksStep (fs : List DeckFile) (st : Store) : Store :=
  { st with decks :=
      upsertAllT ((fs.flatMap normalizeDeckFile).map insertDeckRow) st.decks }

/-- `migratePokemonTypes`: the catch turns any fetch failure into a no-op. -/
def migrateTypesStep (fetch : Except String (List TypeData)) (st : Store) : Store :=
  match fetch with
  | .error _ => st
  | .ok ts =>
    { st with pokemonTypes :=
        upsertAllT (ts.map (fun t => (t.id, normalizeType t))) st.pokemonTypes }

/-- `migratePokemonMoves`. -/
def migrateMovesStep (fetch : Except String (List MoveData)) (st : Store) : Store :=
  match fetch with
  | .error _ => st
  | .ok ms =>
    { st with pokemonMoves :=
        upsertAllT (ms.map (fun m => (m.id, normalizeMove m))) st.pokemonMoves }

/-- `migratePokemonAbilities`. -/
def migrateAbilitiesStep (fetch : Except String (List AbilityData)) (st : Store) : Store :=
  match fetch with
  | .error _ => st
  | .ok as_ =>
    { st with pokemonAbilities :=
        upsertAllT (as_.map (fun a => (a.id, normalizeAbility a))) st.pokemonAbilities }

/-- `migratePokemonSpecies`. -/
def migrateSpeciesStep (fetch : Except String (List SpeciesData)) (st : Store) : Store :=
  match fetch with
  | .error _ => st
  | .ok ps =>
    { st with pokemonSpecies :=
        upsertAllT (ps.map normalizeSpecies) st.pokemonSpecies }

/-- The body of the per-pokedex loop of `migratePokedexes`: a failed
per-pokedex fetch is caught and skipped (`continue`); otherwise the pokedex
row is upserted and its entries are appended. -/
def migrateOnePokedex (st : Store) (item : Except String PokedexData) : Store :=
  match item with
  | .error _ => st
  | .ok pd =>
    let st1 := { st with pokedexes := upsertT pd.id (normalizePokedex pd) st.pokedexes }
    let p := insertEntries pd.id pd.pokemon_entries st1.pokedexEntries st1.nextEntryId
    { st1 with pokedexEntries := p.1, nextEntryId := p.2 }

/-- `migratePokedexes`: a failed list fetch is caught and the whole step
skipped. -/
def migratePokedexesStep (fetch : Except String (List (Except String PokedexData)))
    (st : Store) : Store :=
  match fetch with
  | .error _ => st
  | .ok items => items.foldl migrateOnePokedex st

/-- `PokemonDatabase.migrate`: schema creation (a no-op on the data model,
`CREATE TABLE IF NOT EXISTS`) followed by the steps in source order. -/
def migrate (src : SourceData) (fd : FetchData) (st : Store) : Store :=
  migratePokedexesStep fd.pokedexFetch
    (migrateSpeciesStep fd.speciesFetch
      (migrateAbilitiesStep fd.abilitiesFetch
        (migrateMovesStep fd.movesFetch
          (migrateTypesStep fd.typesFetch
            (migrateDecksStep src.deckFiles
              (migrateCardsStep src.cards
                (migrateSetsStep src.sets st)))))))

/-- The pokedex-row upserts performed by a pokedex-fetch outcome list
(failed per-pokedex fetches contribute nothing). -/
def pokedexPairs (items : List (Except String PokedexData)) :
    List (Int × PokedexRow) :=
  items.filterMap (fun it =>
    match it with
    | .ok pd => some (pd.id, normalizePokedex pd)
    | .error _ => none)

/-- The effect of a pokedex-fetch outcome list on the entry table and its
autoincrement counter. -/
def entriesAfterFold (items : List (Except String PokedexData))
    (p : List PokedexEntryRow × Nat) : List PokedexEntryRow × Nat :=
  items.foldl (fun a it =>
    match it with
    | .error _ => a
    | .ok pd => insertEntries pd.id pd.pokemon_entries a.1 a.2) p

/-- The per-key last write of a batch: `upsertAllT` is pointwise determined
by it. -/
def lastUpsert [DecidableEq κ] (xs : List (κ × α)) (k : κ) : Option α :=
  match xs with
  | [] => none
  | p :: r =>
    match lastUpsert r k with
    | some v => some v
    | none => if p.1 = k then some p.2 else none

/-- The entry rows a pokedex's entry loop appends, given the first
autoincrement id to be consumed. -/
def entryRowsFrom (pid : Int) (nid : Nat) : List EntryData → List PokedexEntryRow
  | [] => []
  | e :: r => normalizeEntry pid nid e :: entryRowsFrom pid (nid + 1) r

/-! ## Fallible inserts and the transaction wrapper (C4)

Row inserts can throw (e.g. a NOT NULL constraint violation); a batch run
through `db.transaction` commits all rows or, when some insert throws,
rolls back so the caller observes the original table. -/

/-- Run fallible row inserts in order, stopping at the first error. -/
def insertBatchE (ins : α → σ → Except ε σ) : List α → σ → Except ε σ
  | [], s => .ok s
  | x :: xs, s =>
    match ins x s with
    | .ok s1 => insertBatchE ins xs s1
    | .error e => .error e

/-- `db.transaction(...)`: the observable state after the call is the fully
committed batch, or the original state (rollback) together with the
propagated error. -/
def runTx (ins : α → σ → Except ε σ) (xs : List α) (s : σ) : σ × Option ε :=
  match insertBatchE ins xs s with
  | .ok s1 => (s1, none)
  | .error e => (s, some e)

/-- `INSERT OR REPLACE` on an association-list table (replace in place by
primary key, append when the key is new). -/
def upsertA [DecidableEq κ] (k : κ) (v : α) : List (κ × α) → List (κ × α)
  | [] => [(k, v)]
  | p :: t => if p.1 = k then (k, v) :: t else p :: upsertA k v t

/-- The fallible `sets` row insert: `sets.name` is NOT NULL, so a record
without a name makes the statement throw. -/
def insertSetRowE (s : SetInfo) (t : List (String × SetRow)) :
    Except String (List (String × SetRow)) :=
  match s.name with
  | none => .error "NOT NULL constraint failed: sets.name"
  | some _ => .ok (upsertA s.id (normalizeSet s) t)

/-- The part of the store the pokedex migration touches, with assoc-list
tables so that concrete runs are decidable. -/
structure PdxState where
  pokedexes : List (Int × PokedexRow)
  entries : List PokedexEntryRow
  nextId : Nat
deriving DecidableEq

/-- The fallible `pokedexes` row insert (name is NOT NULL); this single
insert runs in autocommit mode — it is not inside any transaction. -/
def insertPokedexRowE (pd : PokedexData) (t : List (Int × PokedexRow)) :
    Except String (List (Int × PokedexRow)) :=
  match pd.name with
  | none => .error "NOT NULL constraint failed: pokedexes.name"
  | some _ => .ok (upsertA pd.id (normalizePokedex pd) t)

/-- The per-pokedex loop body with fallible inserts: any error is caught by
the per-pokedex try/catch and the loop continues, keeping whatever had
already autocommitted. -/
def migrateOnePokedexE (st : PdxState) (item : Except String PokedexData) : PdxState :=
  match item with
  | .error _ => st
  | .ok pd =>
    match insertPokedexRowE pd st.pokedexes with
    | .error _ => st
    | .ok t1 =>
      let p := insertEntries pd.id pd.pokemon_entries st.entries st.nextId
      { pokedexes := t1, entries := p.1, nextId := p.2 }

/-- The pokedex migration loop over per-pokedex fetch outcomes. -/
def migratePokedexesE (items : List (Except String PokedexData)) (st : PdxState) :
    PdxState :=
  items.foldl migrateOnePokedexE st

/-- The empty pokedex-migration state. -/
def emptyPdxState : PdxState := ⟨[], [], 1⟩

/-- A pokedex whose row insert succeeds (C4). -/
def cexPokedexGood : PokedexData :=
  { id := 1, name := some "kanto", descriptions := none, names := none
    is_main_series := true, region := none, pokemon_entries := [] }

/-- A pokedex whose row insert violates the NOT NULL name constraint (C4). -/
def cexPokedexBad : PokedexData :=
  { id := 2, name := none, descriptions := none, names := none
    is_main_series := false, region := none, pokemon_entries := [] }

/-- A raw set whose insert succeeds (C4 witness). -/
def witSetGood : SetInfo := { blankSetInfo with id := "base1", name := some "Base" }

/-- A raw set whose insert violates the NOT NULL name constraint (C4
witness). -/
def witSetBad : SetInfo := { blankSetInfo with id := "base2" }

/-! ## Concrete migration inputs (C2, C7) -/

/-- A one-entry pokedex resource with a well-formed species URL. -/
def cexPokedex2 : PokedexData :=
  { id := 1, name := some "kanto", descriptions := none, names := none
    is_main_series := true, region := some "kanto"
    pokemon_entries :=
      [⟨some 1, "https://pokeapi.co/api/v2/pokemon-species/1/", some "bulbasaur"⟩] }

/-- Source data for the C2 counterexample: no local files. -/
def cexSrc2 : SourceData := { sets := [], cards := [], deckFiles := [] }

/-- Fetch outcomes for the C2 counterexample: everything succeeds; the
pokedex fetch yields one pokedex. -/
def cexFetch2 : FetchData :=
  { typesFetch := .ok [], movesFetch := .ok [], abilitiesFetch := .ok []
    speciesFetch := .ok [], pokedexFetch := .ok [.ok cexPokedex2] }

/-- A well-formed pokedex entry (C7). -/
def cexEntryGood : EntryData :=
  ⟨some 1, "https://pokeapi.co/api/v2/pokemon-species/25/", some "pikachu"⟩

/-- A pokedex entry whose URL is malformed (C7): `parseInt` yields NaN. -/
def cexEntryBad : EntryData := ⟨some 2, "garbage", some "mew"⟩

/-- A pokedex holding one well-formed and one malformed entry (C7). -/
def cexPokedex7 : PokedexData :=
  { id := 1, name := some "kanto", descriptions := none, names := none
    is_main_series := true, region := none
    pokemon_entries := [cexEntryGood, cexEntryBad] }

/-! ## The reference-number grouping query (`getPokemonGrouped`) -/

/-- One group of the `/v2/pokemon` grouping: the value built under
`pokemonByPokedex[pokedexNum]`. -/
structure Grouping where
  nationalPokedexNumber : Nat
  name : String
  cards : List CardOut
deriving DecidableEq

/-- The JSON text stored in the `nationalPokedexNumbers` column, which the
SQL `ORDER BY c.nationalPokedexNumbers` compares as TEXT. -/
def encodeNatList (ns : List Nat) : String :=
  "[" ++ String.intercalate "," (ns.map toString) ++ "]"

/-- Byte-wise (here: code-point-wise, which agrees on the ASCII texts at
hand) strict order on character lists, as SQLite's default BINARY collation
orders TEXT values. -/
def charListLt : List Char → List Char → Bool
  | [], [] => false
  | [], _ :: _ => true
  | _ :: _, [] => false
  | a :: as_, b :: bs =>
    if a.toNat < b.toNat then true
    else if b.toNat < a.toNat then false
    else charListLt as_ bs

/-- `a ≤ b` in the BINARY collation. -/
def strLeB (a b : String) : Bool := !(charListLt b.data a.data)

/-- The rows visited by `getPokemonGrouped`: cards whose encoded
reference-number list is neither NULL (never stored) nor `'[]'`, ordered by
the encoded text (`ORDER BY c.nationalPokedexNumbers`; the stable
`insertionSort` fixes the order among equal keys, which SQLite leaves
unspecified). -/
def visitedRows (cards : List CardRow) : List CardRow :=
  List.insertionSort
    (fun a b =>
      strLeB (encodeNatList a.nationalPokedexNumbers)
        (encodeNatList b.nationalPokedexNumbers) = true)
    (cards.filter (fun c => !c.nationalPokedexNumbers.isEmpty))

/-- `pokemonByPokedex[num]` update for one (card, number) pair: push the
card onto the existing group, or create the group with the card's name on
first sight. -/
def addCardToGroup (gs : List Grouping) (x : CardOut) (n : Nat) : List Grouping :=
  if gs.any (fun g => g.nationalPokedexNumber == n) then
    gs.map (fun g =>
      if g.nationalPokedexNumber == n then { g with cards := g.cards ++ [x] } else g)
  else gs ++ [{ nationalPokedexNumber := n, name := x.name, cards := [x] }]

/-- `PokemonDatabase.getPokemonGrouped`: scan the visited rows, fan each
transformed card out to the group of every number it carries, and sort the
groups ascending by reference number (`.sort((a, b) => a - b)`). -/
def getPokemonGrouped (cards : List CardRow) (sets : List SetRow) : List Grouping :=
  let gs := (visitedRows cards).foldl
    (fun acc r =>
      let x := transformCardRow r (joinSet sets r)
      x.nationalPokedexNumbers.foldl (fun a n => addCardToGroup a x n) acc) []
  List.insertionSort
    (fun a b => a.nationalPokedexNumber ≤ b.nationalPokedexNumber) gs

instance : IsTotal Grouping
    (fun a b => a.nationalPokedexNumber ≤ b.nationalPokedexNumber) :=
  ⟨fun a b => Nat.le_total a.nationalPokedexNumber b.nationalPokedexNumber⟩

instance : IsTrans Grouping
    (fun a b => a.nationalPokedexNumber ≤ b.nationalPokedexNumber) :=
  ⟨fun _ _ _ hab hbc => Nat.le_trans hab hbc⟩

/-- The (card, number) pairs contributed by one visited row. -/
def rowPairs (sets : List SetRow) (c : CardRow) : List (CardOut × Nat) :=
  c.nationalPokedexNumbers.map
    (fun n => (transformCardRow c (joinSet sets c), n))

/-- All (card, number) pairs of a row scan, in visit order. -/
def allPairs (sets : List SetRow) (rows : List CardRow) : List (CardOut × Nat) :=
  rows.flatMap (rowPairs sets)

/-- The grouping fold, flattened to one pass over (card, number) pairs. -/
def buildGroups (gs : List Grouping) (ps : List (CardOut × Nat)) : List Grouping :=
  ps.foldl (fun a p => addCardToGroup a p.1 p.2) gs

/-- Invariant of the grouping fold after consuming the pairs `ps`:
the groups are exactly the distinct numbers seen, each group holds exactly
the cards paired with its number, and is named after the first such card. -/
def GroupInv (ps : List (CardOut × Nat)) (gs : List Grouping) : Prop :=
  (∀ n : Nat, (∃ g ∈ gs, g.nationalPokedexNumber = n) ↔ ∃ p ∈ ps, p.2 = n) ∧
  (gs.map (fun g => g.nationalPokedexNumber)).Nodup ∧
  (∀ g ∈ gs, ∀ x : CardOut, x ∈ g.cards ↔ (x, g.nationalPokedexNumber) ∈ ps) ∧
  (∀ g ∈ gs, ∃ c0 : CardOut,
    ps.find? (fun p => p.2 == g.nationalPokedexNumber) =
      some (c0, g.nationalPokedexNumber) ∧ g.name = c0.name)

/-- Cards used to exercise the grouping query (C5 witness): a card indexed
under two reference numbers and a card indexed under one. -/
def demoCardRow1 : CardRow :=
  { blankCardRow with
    id := "base1-58"
    name := "Pikachu"
    nationalPokedexNumbers := [25, 26] }

/-- Second grouping demo card. -/
def demoCardRow2 : CardRow :=
  { blankCardRow with
    id := "base1-14"
    name := "Raichu"
    nationalPokedexNumbers := [26] }

-- ========================= theorems =========================

/-- Pointwise value of the condition list assembled by `getAllCards` on a
joined row. -/
theorem filterConds_all_eval (f : Filters) (c : CardRow) (s : Option SetRow) :
    (filterConds f).all (fun p => p c s) =
      ((f.types.isEmpty || c.types.any (fun t => f.types.contains t)) &&
       (f.subtypes.isEmpty || c.subtypes.any (fun t => f.subtypes.contains t)) &&
       (f.years.isEmpty ||
         (match s.bind (fun r => r.year) with
           | some y => f.years.contains y
           | none => false)) &&
       (f.sets.isEmpty ||
         (match c.setId with
           | some sid => f.sets.contains sid
           | none => false)) &&
       (f.rarities.isEmpty ||
         (match c.rarity with
           | some r => f.rarities.contains r
           | none => false))) := by
  unfold filterConds
  by_cases h1 : f.types.isEmpty <;> by_cases h2 : f.subtypes.isEmpty <;>
    by_cases h3 : f.years.isEmpty <;> by_cases h4 : f.sets.isEmpty <;>
      by_cases h5 : f.rarities.isEmpty <;>
    simp [h1, h2, h3, h4, h5, List.all_append, Bool.and_assoc]

/-- C1: for every stored card population and every filter, the card-listing
query returns exactly the cards satisfying the conjunction (AND) of all
present predicate groups, where within one group the match is disjunctive
(non-empty intersection for types/subtypes, membership of the joined set's
year, of the setId, equality with a rarity); an absent or empty group
imposes no constraint, and all comparisons are exact string matches. -/
theorem C1_filter_query (cards : List CardRow) (sets : List SetRow) (f : Filters) :
    getAllCards cards sets f =
      (cards.filter (fun c => specCardMatches f sets c)).map
        (fun c => transformCardRow c (joinSet sets c)) := by
  unfold getAllCards
  congr 1
  apply List.filter_congr
  intro c _
  rw [filterConds_all_eval]
  rfl

/-- C3 counterexample: a raw card whose nested set reference is present with
an empty id does not get that id stored unchanged — the derivation from the
card identifier overrides it. -/
theorem C3_counterexample :
    cexCard3.set = some ⟨"", none, none⟩ ∧
    (normalizeCard cexCard3).setId ≠ some "" ∧
    (normalizeCard cexCard3).setId = some "base1" := by
  refine ⟨rfl, ?_, ?_⟩ <;> decide

/-- C3 (amended): when the nested set reference is absent, or present with an
empty id, and the card identifier is a non-empty string, the stored setId is
the prefix of the identifier before the first `-`; when the nested set
reference is present with a non-empty id, that id is stored unchanged. -/
theorem C3_setId_derivation :
    (∀ c : PokemonCard, c.set = none → c.id ≠ "" →
      (normalizeCard c).setId = some (jsSplitHead c.id '-')) ∧
    (∀ (c : PokemonCard) (s : RawSetRef), c.set = some s → s.id = "" → c.id ≠ "" →
      (normalizeCard c).setId = some (jsSplitHead c.id '-')) ∧
    (∀ (c : PokemonCard) (s : RawSetRef), c.set = some s → s.id ≠ "" →
      (normalizeCard c).setId = some s.id) := by
  refine ⟨?_, ?_, ?_⟩
  · intro c hset hid
    simp [normalizeCard, computeSetId, hset, jsTruthy, hid]
  · intro c s hset hsid hid
    simp [normalizeCard, computeSetId, hset, jsTruthy, hsid, hid]
  · intro c s hset hsid
    simp [normalizeCard, computeSetId, hset, jsTruthy, hsid]

/-- C3 witness: the amended derivation evaluated on concrete cards. -/
theorem C3_setId_derivation_witness :
    (normalizeCard witCard3a).setId = some (jsSplitHead "base1-4" '-') ∧
    (normalizeCard witCard3b).setId = some "xy7" :=
  ⟨C3_setId_derivation.1 witCard3a rfl (by decide),
   C3_setId_derivation.2.2 witCard3b ⟨"xy7", none, none⟩ rfl (by decide)⟩

/-- C9 counterexample: a set record whose releaseDate is present but empty is
stored with a NULL year, not with the (empty) substring before the first
`/`. -/
theorem C9_counterexample :
    cexSet9.releaseDate = some "" ∧
    (normalizeSet cexSet9).year ≠ some (jsSplitHead "" '/') := by
  refine ⟨rfl, ?_⟩
  decide

/-- C9 (amended): the year stored at ingestion equals the substring of
releaseDate before the first `/` when releaseDate is present and non-empty,
and is NULL when releaseDate is absent or the empty string. -/
theorem C9_year_derivation :
    (∀ (s : SetInfo) (rd : String), s.releaseDate = some rd → rd ≠ "" →
      (normalizeSet s).year = some (jsSplitHead rd '/')) ∧
    (∀ s : SetInfo, s.releaseDate = none → (normalizeSet s).year = none) ∧
    (∀ s : SetInfo, s.releaseDate = some "" → (normalizeSet s).year = none) := by
  refine ⟨?_, ?_, ?_⟩
  · intro s rd hrd hne
    simp [normalizeSet, deriveYear, hrd, jsTruthy, hne]
  · intro s hrd
    simp [normalizeSet, deriveYear, hrd, jsTruthy]
  · intro s hrd
    simp [normalizeSet, deriveYear, hrd, jsTruthy]

/-- C9 witness: `releaseDate = "2023/03/31"` yields year `"2023"`, and an
absent releaseDate yields no year. -/
theorem C9_year_derivation_witness :
    (normalizeSet witSet9).year = some (jsSplitHead "2023/03/31" '/') ∧
    jsSplitHead "2023/03/31" '/' = "2023" ∧
    (normalizeSet blankSetInfo).year = none :=
  ⟨C9_year_derivation.1 witSet9 "2023/03/31" rfl (by decide), by decide,
   C9_year_derivation.2.1 blankSetInfo rfl⟩


/-- C10 counterexample: for a stored card whose setId matches no sets row,
the transformed nested set does not carry null images — the `|| '{}'`
default decodes to the empty object instead. -/
theorem C10_counterexample :
    joinSet [] cexCardRow10 = none ∧
    (transformCardRow cexCardRow10 none).set.images ≠ none ∧
    (transformCardRow cexCardRow10 none).set.images = some [] := by
  refine ⟨rfl, by decide, by decide⟩

/-- C10 (amended): a stored card whose setId matches no sets row is still
returned by the unfiltered listing (the join is LEFT, not inner), with the
stored setId as the nested set's id, null name, series, releaseDate and
year, the empty image bundle (not null) for images, and total fixed at 0. -/
theorem C10_left_join (cards : List CardRow) (sets : List SetRow) (c : CardRow)
    (hc : c ∈ cards) (hj : joinSet sets c = none) :
    transformCardRow c none ∈ getAllCards cards sets {} ∧
    (transformCardRow c none).set.id = c.setId ∧
    (transformCardRow c none).set.name = none ∧
    (transformCardRow c none).set.series = none ∧
    (transformCardRow c none).set.releaseDate = none ∧
    (transformCardRow c none).set.year = none ∧
    (transformCardRow c none).set.images = some [] ∧
    (transformCardRow c none).set.total = 0 := by
  refine ⟨?_, rfl, rfl, rfl, rfl, rfl, rfl, rfl⟩
  unfold getAllCards
  refine List.mem_map.mpr ⟨c, ?_, by rw [hj]⟩
  simp [List.mem_filter, hc, filterConds, Filters.types]

/-- C10 witness: the amended statement evaluated on a one-card store with an
empty sets table. -/
theorem C10_left_join_witness :
    transformCardRow cexCardRow10 none ∈ getAllCards [cexCardRow10] [] {} ∧
    (transformCardRow cexCardRow10 none).set.id = cexCardRow10.setId ∧
    (transformCardRow cexCardRow10 none).set.name = none ∧
    (transformCardRow cexCardRow10 none).set.series = none ∧
    (transformCardRow cexCardRow10 none).set.releaseDate = none ∧
    (transformCardRow cexCardRow10 none).set.year = none ∧
    (transformCardRow cexCardRow10 none).set.images = some [] ∧
    (transformCardRow cexCardRow10 none).set.total = 0 :=
  C10_left_join [cexCardRow10] [] cexCardRow10 (by simp) rfl

/-- C8 counterexample: the round trip does not reproduce the raw card's
nested set total — the transform hard-codes 0 — so year/setId are not the
only differences. -/
theorem C8_counterexample :
    cexCard8.set = some ⟨"base1", some "Base", some 100⟩ ∧
    (roundTripOut cexCard8 cexSet8).set.total = 0 ∧
    (roundTripOut cexCard8 cexSet8).set.total ≠ 100 := by
  refine ⟨rfl, by decide, by decide⟩

/-- C8 (amended): normalize → store → transform reproduces every card-level
field up to the normalizer's defaulting (absent list fields become empty
lists, absent legalities/images become empty objects), adds the derived
setId/year, and rebuilds the nested set from the joined sets row with only
id, name, series, releaseDate, images and year — its total is always 0. -/
theorem C8_roundtrip (c : PokemonCard) (s : SetInfo)
    (h : (normalizeCard c).setId = some s.id) :
    (roundTripOut c s).id = c.id ∧
    (roundTripOut c s).name = c.name ∧
    (roundTripOut c s).supertype = c.supertype ∧
    (roundTripOut c s).subtypes = c.subtypes.getD [] ∧
    (roundTripOut c s).level = c.level ∧
    (roundTripOut c s).hp = c.hp ∧
    (roundTripOut c s).types = c.types.getD [] ∧
    (roundTripOut c s).evolvesFrom = c.evolvesFrom ∧
    (roundTripOut c s).evolvesTo = c.evolvesTo.getD [] ∧
    (roundTripOut c s).abilities = c.abilities.getD [] ∧
    (roundTripOut c s).attacks = c.attacks.getD [] ∧
    (roundTripOut c s).weaknesses = c.weaknesses.getD [] ∧
    (roundTripOut c s).resistances = c.resistances.getD [] ∧
    (roundTripOut c s).retreatCost = c.retreatCost.getD [] ∧
    (roundTripOut c s).convertedRetreatCost = c.convertedRetreatCost ∧
    (roundTripOut c s).number = c.number ∧
    (roundTripOut c s).artist = c.artist ∧
    (roundTripOut c s).rarity = c.rarity ∧
    (roundTripOut c s).flavorText = c.flavorText ∧
    (roundTripOut c s).nationalPokedexNumbers = c.nationalPokedexNumbers.getD [] ∧
    (roundTripOut c s).legalities = c.legalities.getD [] ∧
    (roundTripOut c s).images = c.images.getD [] ∧
    (roundTripOut c s).rules = c.rules.getD [] ∧
    (roundTripOut c s).set.id = some s.id ∧
    (roundTripOut c s).set.name = s.name ∧
    (roundTripOut c s).set.series = s.series ∧
    (roundTripOut c s).set.releaseDate = s.releaseDate ∧
    (roundTripOut c s).set.images = some (s.images.getD []) ∧
    (roundTripOut c s).set.year = deriveYear s.releaseDate ∧
    (roundTripOut c s).set.total = 0 := by
  have hj : joinSet [normalizeSet s] (normalizeCard c) = some (normalizeSet s) := by
    simp [joinSet, List.find?, h, normalizeSet]
  unfold roundTripOut
  rw [hj]
  exact ⟨rfl, rfl, rfl, rfl, rfl, rfl, rfl, rfl, rfl, rfl, rfl, rfl, rfl, rfl,
    rfl, rfl, rfl, rfl, rfl, rfl, rfl, rfl, rfl, h, rfl, rfl, rfl, rfl, rfl, rfl⟩

/-- C8 witness: the amended round trip evaluated on a concrete card and its
migrated set. -/
theorem C8_roundtrip_witness :
    (roundTripOut cexCard8 cexSet8).id = cexCard8.id ∧
    (roundTripOut cexCard8 cexSet8).set.name = some "Base" :=
  ⟨(C8_roundtrip cexCard8 cexSet8 (by decide)).1, by decide⟩

/-- Pointwise value of a batch of upserts. -/
theorem upsertAllT_apply [DecidableEq κ] (xs : List (κ × α)) (t : Table κ α) (k : κ) :
    upsertAllT xs t k =
      match lastUpsert xs k with
      | some v => some v
      | none => t k := by
  induction xs generalizing t with
  | nil => rfl
  | cons p r ih =>
    show upsertAllT r (upsertT p.1 p.2 t) k = _
    rw [ih]
    by_cases hk : p.1 = k
    · cases h : lastUpsert r k with
      | some v => simp [lastUpsert, h]
      | none => subst hk; simp [lastUpsert, h, upsertT]
    · have hk2 : ¬(k = p.1) := fun hh => hk hh.symm
      cases h : lastUpsert r k with
      | some v => simp [lastUpsert, h]
      | none => simp [lastUpsert, h, upsertT, hk, hk2]

/-- Re-running a batch of upserts on its own result changes nothing. -/
theorem upsertAllT_idem [DecidableEq κ] (xs : List (κ × α)) (t : Table κ α) :
    upsertAllT xs (upsertAllT xs t) = upsertAllT xs t := by
  funext k
  rw [upsertAllT_apply xs (upsertAllT xs t) k, upsertAllT_apply xs t k]
  cases h : lastUpsert xs k <;> rfl

/-- The per-pokedex loop body never touches the sets table. -/
theorem migrateOnePokedex_sets (st : Store) (it : Except String PokedexData) :
    (migrateOnePokedex st it).sets = st.sets := by
  cases it <;> rfl

/-- The per-pokedex loop body never touches the cards table. -/
theorem migrateOnePokedex_cards (st : Store) (it : Except String PokedexData) :
    (migrateOnePokedex st it).cards = st.cards := by
  cases it <;> rfl

/-- The per-pokedex loop body never touches the decks table. -/
theorem migrateOnePokedex_decks (st : Store) (it : Except String PokedexData) :
    (migrateOnePokedex st it).decks = st.decks := by
  cases it <;> rfl

/-- The per-pokedex loop body never touches the types table. -/
theorem migrateOnePokedex_types (st : Store) (it : Except String PokedexData) :
    (migrateOnePokedex st it).pokemonTypes = st.pokemonTypes := by
  cases it <;> rfl

/-- The per-pokedex loop body never touches the moves table. -/
theorem migrateOnePokedex_moves (st : Store) (it : Except String PokedexData) :
    (migrateOnePokedex st it).pokemonMoves = st.pokemonMoves := by
  cases it <;> rfl

/-- The per-pokedex loop body never touches the abilities table. -/
theorem migrateOnePokedex_abilities (st : Store) (it : Except String PokedexData) :
    (migrateOnePokedex st it).pokemonAbilities = st.pokemonAbilities := by
  cases it <;> rfl

/-- The per-pokedex loop body never touches the species table. -/
theorem migrateOnePokedex_species (st : Store) (it : Except String PokedexData) :
    (migrateOnePokedex st it).pokemonSpecies = st.pokemonSpecies := by
  cases it <;> rfl

/-- The pokedex loop never touches the sets table. -/
theorem pokedexFold_sets (items : List (Except String PokedexData)) :
    ∀ st : Store, (items.foldl migrateOnePokedex st).sets = st.sets := by
  induction items with
  | nil => intro st; rfl
  | cons it r ih =>
    intro st
    rw [List.foldl_cons, ih, migrateOnePokedex_sets]

/-- The pokedex loop never touches the cards table. -/
theorem pokedexFold_cards (items : List (Except String PokedexData)) :
    ∀ st : Store, (items.foldl migrateOnePokedex st).cards = st.cards := by
  induction items with
  | nil => intro st; rfl
  | cons it r ih =>
    intro st
    rw [List.foldl_cons, ih, migrateOnePokedex_cards]

/-- The pokedex loop never touches the decks table. -/
theorem pokedexFold_decks (items : List (Except String PokedexData)) :
    ∀ st : Store, (items.foldl migrateOnePokedex st).decks = st.decks := by
  induction items with
  | nil => intro st; rfl
  | cons it r ih =>
    intro st
    rw [List.foldl_cons, ih, migrateOnePokedex_decks]

/-- The pokedex loop never touches the types table. -/
theorem pokedexFold_types (items : List (Except String PokedexData)) :
    ∀ st : Store, (items.foldl migrateOnePokedex st).pokemonTypes = st.pokemonTypes := by
  induction items with
  | nil => intro st; rfl
  | cons it r ih =>
    intro st
    rw [List.foldl_cons, ih, migrateOnePokedex_types]

/-- The pokedex loop never touches the moves table. -/
theorem pokedexFold_moves (items : List (Except String PokedexData)) :
    ∀ st : Store, (items.foldl migrateOnePokedex st).pokemonMoves = st.pokemonMoves := by
  induction items with
  | nil => intro st; rfl
  | cons it r ih =>
    intro st
    rw [List.foldl_cons, ih, migrateOnePokedex_moves]

/-- The pokedex loop never touches the abilities table. -/
theorem pokedexFold_abilities (items : List (Except String PokedexData)) :
    ∀ st : Store, (items.foldl migrateOnePokedex st).pokemonAbilities = st.pokemonAbilities := by
  induction items with
  | nil => intro st; rfl
  | cons it r ih =>
    intro st
    rw [List.foldl_cons, ih, migrateOnePokedex_abilities]

/-- The pokedex loop never touches the species table. -/
theorem pokedexFold_species (items : List (Except String PokedexData)) :
    ∀ st : Store, (items.foldl migrateOnePokedex st).pokemonSpecies = st.pokemonSpecies := by
  induction items with
  | nil => intro st; rfl
  | cons it r ih =>
    intro st
    rw [List.foldl_cons, ih, migrateOnePokedex_species]

/-- The pokedex loop performs exactly the pokedex-row upserts of the batch. -/
theorem pokedexFold_pokedexes (items : List (Except String PokedexData)) :
    ∀ st : Store,
      (items.foldl migrateOnePokedex st).pokedexes =
        upsertAllT (pokedexPairs items) st.pokedexes := by
  induction items with
  | nil => intro st; rfl
  | cons it r ih =>
    intro st
    rw [List.foldl_cons, ih]
    cases it <;> rfl

/-- The pokedex loop's effect on the entry table and its counter. -/
theorem pokedexFold_entriesPair (items : List (Except String PokedexData)) :
    ∀ st : Store,
      ((items.foldl migrateOnePokedex st).pokedexEntries,
       (items.foldl migrateOnePokedex st).nextEntryId) =
        entriesAfterFold items (st.pokedexEntries, st.nextEntryId) := by
  induction items with
  | nil => intro st; rfl
  | cons it r ih =>
    intro st
    rw [List.foldl_cons, ih]
    cases it <;> rfl

/-- The sets table after a full migration. -/
theorem migrate_sets (src : SourceData) (fd : FetchData) (st : Store) :
    (migrate src fd st).sets =
      upsertAllT (src.sets.map (fun s => (s.id, normalizeSet s))) st.sets := by
  obtain ⟨tf, mf, af, sf, pf⟩ := fd
  cases tf <;> cases mf <;> cases af <;> cases sf <;> cases pf <;>
    first
      | rfl
      | exact pokedexFold_sets _ _

/-- The cards table after a full migration. -/
theorem migrate_cards (src : SourceData) (fd : FetchData) (st : Store) :
    (migrate src fd st).cards =
      upsertAllT (src.cards.map (fun c => (c.id, normalizeCard c))) st.cards := by
  obtain ⟨tf, mf, af, sf, pf⟩ := fd
  cases tf <;> cases mf <;> cases af <;> cases sf <;> cases pf <;>
    first
      | rfl
      | exact pokedexFold_cards _ _

/-- The decks table after a full migration. -/
theorem migrate_decks (src : SourceData) (fd : FetchData) (st : Store) :
    (migrate src fd st).decks =
      upsertAllT ((src.deckFiles.flatMap normalizeDeckFile).map insertDeckRow)
        st.decks := by
  obtain ⟨tf, mf, af, sf, pf⟩ := fd
  cases tf <;> cases mf <;> cases af <;> cases sf <;> cases pf <;>
    first
      | rfl
      | exact pokedexFold_decks _ _

/-- The types table after a full migration. -/
theorem migrate_types (src : SourceData) (fd : FetchData) (st : Store) :
    (migrate src fd st).pokemonTypes =
      (match fd.typesFetch with
        | .error _ => st.pokemonTypes
        | .ok ts =>
          upsertAllT (ts.map (fun t => (t.id, normalizeType t))) st.pokemonTypes) := by
  obtain ⟨tf, mf, af, sf, pf⟩ := fd
  cases tf <;> cases mf <;> cases af <;> cases sf <;> cases pf <;>
    first
      | rfl
      | exact pokedexFold_types _ _

/-- The moves table after a full migration. -/
theorem migrate_moves (src : SourceData) (fd : FetchData) (st : Store) :
    (migrate src fd st).pokemonMoves =
      (match fd.movesFetch with
        | .error _ => st.pokemonMoves
        | .ok ms =>
          upsertAllT (ms.map (fun m => (m.id, normalizeMove m))) st.pokemonMoves) := by
  obtain ⟨tf, mf, af, sf, pf⟩ := fd
  cases tf <;> cases mf <;> cases af <;> cases sf <;> cases pf <;>
    first
      | rfl
      | exact pokedexFold_moves _ _

/-- The abilities table after a full migration. -/
theorem migrate_abilities (src : SourceData) (fd : FetchData) (st : Store) :
    (migrate src fd st).pokemonAbilities =
      (match fd.abilitiesFetch with
        | .error _ => st.pokemonAbilities
        | .ok as_ =>
          upsertAllT (as_.map (fun a => (a.id, normalizeAbility a)))
            st.pokemonAbilities) := by
  obtain ⟨tf, mf, af, sf, pf⟩ := fd
  cases tf <;> cases mf <;> cases af <;> cases sf <;> cases pf <;>
    first
      | rfl
      | exact pokedexFold_abilities _ _

/-- The species table after a full migration. -/
theorem migrate_species (src : SourceData) (fd : FetchData) (st : Store) :
    (migrate src fd st).pokemonSpecies =
      (match fd.speciesFetch with
        | .error _ => st.pokemonSpecies
        | .ok ps => upsertAllT (ps.map normalizeSpecies) st.pokemonSpecies) := by
  obtain ⟨tf, mf, af, sf, pf⟩ := fd
  cases tf <;> cases mf <;> cases af <;> cases sf <;> cases pf <;>
    first
      | rfl
      | exact pokedexFold_species _ _

/-- The pokedexes table after a full migration. -/
theorem migrate_pokedexes (src : SourceData) (fd : FetchData) (st : Store) :
    (migrate src fd st).pokedexes =
      (match fd.pokedexFetch with
        | .error _ => st.pokedexes
        | .ok items => upsertAllT (pokedexPairs items) st.pokedexes) := by
  obtain ⟨tf, mf, af, sf, pf⟩ := fd
  cases tf <;> cases mf <;> cases af <;> cases sf <;> cases pf <;>
    first
      | rfl
      | exact pokedexFold_pokedexes _ _

/-- The entry table and its counter after a full migration. -/
theorem migrate_entriesPair (src : SourceData) (fd : FetchData) (st : Store) :
    ((migrate src fd st).pokedexEntries, (migrate src fd st).nextEntryId) =
      (match fd.pokedexFetch with
        | .error _ => (st.pokedexEntries, st.nextEntryId)
        | .ok items => entriesAfterFold items (st.pokedexEntries, st.nextEntryId)) := by
  obtain ⟨tf, mf, af, sf, pf⟩ := fd
  cases tf <;> cases mf <;> cases af <;> cases sf <;> cases pf <;>
    first
      | rfl
      | exact pokedexFold_entriesPair _ _

/-- C2 counterexample: rerunning the full migration on unchanged source data
duplicates every pokedex-entry row (the `pokedex_entries` insert never
supplies the AUTOINCREMENT primary key, so `INSERT OR REPLACE` never
replaces), so the store contents are not identical to a single run. -/
theorem C2_counterexample :
    (migrate cexSrc2 cexFetch2 emptyStore).pokedexEntries.length = 1 ∧
    (migrate cexSrc2 cexFetch2 (migrate cexSrc2 cexFetch2 emptyStore)).pokedexEntries.length = 2 ∧
    (migrate cexSrc2 cexFetch2 (migrate cexSrc2 cexFetch2 emptyStore)).pokedexEntries ≠
      (migrate cexSrc2 cexFetch2 emptyStore).pokedexEntries := by
  refine ⟨by decide, by decide, by decide⟩

/-- C2 (amended): running the full migration twice against the same
unchanged source data yields identical contents for every keyed entity
table (sets, cards, decks, types, moves, abilities, species, pokedexes);
the `pokedex_entries` table is the exception — its primary key is
autogenerated, so a second run appends duplicate rows. -/
theorem C2_migration_idempotence (src : SourceData) (fd : FetchData) (st : Store) :
    (migrate src fd (migrate src fd st)).sets = (migrate src fd st).sets ∧
    (migrate src fd (migrate src fd st)).cards = (migrate src fd st).cards ∧
    (migrate src fd (migrate src fd st)).decks = (migrate src fd st).decks ∧
    (migrate src fd (migrate src fd st)).pokemonTypes = (migrate src fd st).pokemonTypes ∧
    (migrate src fd (migrate src fd st)).pokemonMoves = (migrate src fd st).pokemonMoves ∧
    (migrate src fd (migrate src fd st)).pokemonAbilities = (migrate src fd st).pokemonAbilities ∧
    (migrate src fd (migrate src fd st)).pokemonSpecies = (migrate src fd st).pokemonSpecies ∧
    (migrate src fd (migrate src fd st)).pokedexes = (migrate src fd st).pokedexes := by
  refine ⟨?_, ?_, ?_, ?_, ?_, ?_, ?_, ?_⟩
  · simp only [migrate_sets]
    exact upsertAllT_idem _ _
  · simp only [migrate_cards]
    exact upsertAllT_idem _ _
  · simp only [migrate_decks]
    exact upsertAllT_idem _ _
  · cases htf : fd.typesFetch with
    | error er => simp only [migrate_types, htf]
    | ok ts =>
      simp only [migrate_types, htf]
      exact upsertAllT_idem _ _
  · cases hmf : fd.movesFetch with
    | error er => simp only [migrate_moves, hmf]
    | ok ms =>
      simp only [migrate_moves, hmf]
      exact upsertAllT_idem _ _
  · cases haf : fd.abilitiesFetch with
    | error er => simp only [migrate_abilities, haf]
    | ok as_ =>
      simp only [migrate_abilities, haf]
      exact upsertAllT_idem _ _
  · cases hsf : fd.speciesFetch with
    | error er => simp only [migrate_species, hsf]
    | ok ps =>
      simp only [migrate_species, hsf]
      exact upsertAllT_idem _ _
  · cases hpf : fd.pokedexFetch with
    | error er => simp only [migrate_pokedexes, hpf]
    | ok items =>
      simp only [migrate_pokedexes, hpf]
      exact upsertAllT_idem _ _

/-- C6: when the species fetch fails, the failure is absorbed inside that
step: every other migration step runs exactly as in a migration whose
species fetch returned anything at all (in particular the sets and cards
tables are identical to a successful run's), and the species table is left
untouched. -/
theorem C6_species_failure_isolated (src : SourceData) (fd : FetchData)
    (st : Store) (e : String) :
    (migrate src { fd with speciesFetch := .error e } st).sets =
      (migrate src fd st).sets ∧
    (migrate src { fd with speciesFetch := .error e } st).cards =
      (migrate src fd st).cards ∧
    (migrate src { fd with speciesFetch := .error e } st).decks =
      (migrate src fd st).decks ∧
    (migrate src { fd with speciesFetch := .error e } st).pokemonTypes =
      (migrate src fd st).pokemonTypes ∧
    (migrate src { fd with speciesFetch := .error e } st).pokemonMoves =
      (migrate src fd st).pokemonMoves ∧
    (migrate src { fd with speciesFetch := .error e } st).pokemonAbilities =
      (migrate src fd st).pokemonAbilities ∧
    (migrate src { fd with speciesFetch := .error e } st).pokedexes =
      (migrate src fd st).pokedexes ∧
    ((migrate src { fd with speciesFetch := .error e } st).pokedexEntries,
     (migrate src { fd with speciesFetch := .error e } st).nextEntryId) =
      ((migrate src fd st).pokedexEntries, (migrate src fd st).nextEntryId) ∧
    (migrate src { fd with speciesFetch := .error e } st).pokemonSpecies =
      st.pokemonSpecies := by
  obtain ⟨tf, mf, af, sf, pf⟩ := fd
  refine ⟨?_, ?_, ?_, ?_, ?_, ?_, ?_, ?_, ?_⟩
  · simp only [migrate_sets]
  · simp only [migrate_cards]
  · simp only [migrate_decks]
  · simp only [migrate_types]
  · simp only [migrate_moves]
  · simp only [migrate_abilities]
  · simp only [migrate_pokedexes]
  · rw [migrate_entriesPair, migrate_entriesPair]
  · rw [migrate_species]

/-- `insertEntries` appends one row per entry, consuming consecutive
autoincrement ids. -/
theorem insertEntries_spec (pid : Int) (es : List EntryData) :
    ∀ (acc : List PokedexEntryRow) (nid : Nat),
      insertEntries pid es acc nid =
        (acc ++ entryRowsFrom pid nid es, nid + es.length) := by
  induction es with
  | nil => intro acc nid; simp [insertEntries, entryRowsFrom]
  | cons e r ih =>
    intro acc nid
    have step : insertEntries pid (e :: r) acc nid =
        insertEntries pid r (acc ++ [normalizeEntry pid nid e]) (nid + 1) := rfl
    rw [step, ih]
    simp [entryRowsFrom, List.append_assoc, Prod.ext_iff]
    omega

/-- One appended row per entry. -/
theorem entryRowsFrom_length (pid : Int) (es : List EntryData) :
    ∀ nid : Nat, (entryRowsFrom pid nid es).length = es.length := by
  induction es with
  | nil => intro nid; rfl
  | cons e r ih => intro nid; simp [entryRowsFrom, ih]

/-- C7 counterexample: an entry whose URL is malformed is not skipped — it
is ingested anyway, with a NULL species id (`parseInt` yields NaN, which is
stored as NULL), and the per-item catch claimed by the spec does not
exist. -/
theorem C7_counterexample :
    parseSpeciesId "garbage" = none ∧
    parseSpeciesId "https://pokeapi.co/api/v2/pokemon-species/25/" = some 25 ∧
    (migrateOnePokedex emptyStore (.ok cexPokedex7)).pokedexEntries =
      [⟨1, 1, some 1, some 25, some "pikachu"⟩,
       ⟨2, 1, some 2, none, some "mew"⟩] ∧
    (migrateOnePokedex emptyStore (.ok cexPokedex7)).pokedexEntries.length = 2 := by
  refine ⟨by decide, by decide, by decide, by decide⟩

/-- C7 (amended): each entry's species id is obtained by splitting the URL
on `/` and parsing the second-to-last segment as an integer; an entry whose
URL is malformed is nonetheless ingested — its species id is NULL — and the
whole entry batch of the pokedex is appended, one row per entry. -/
theorem C7_entry_ingestion :
    (∀ url : String,
      parseSpeciesId url = ((jsSplit url '/').reverse.drop 1).head?.bind jsParseInt) ∧
    (∀ (pd : PokedexData) (st : Store),
      (migrateOnePokedex st (.ok pd)).pokedexEntries =
        st.pokedexEntries ++ entryRowsFrom pd.id st.nextEntryId pd.pokemon_entries ∧
      (migrateOnePokedex st (.ok pd)).pokedexEntries.length =
        st.pokedexEntries.length + pd.pokemon_entries.length) := by
  constructor
  · intro url
    simp only [parseSpeciesId]
    by_cases h : 2 ≤ (jsSplit url '/').length
    · rw [if_pos h, List.head?_drop, List.getElem?_reverse (by omega)]
      have heq : (jsSplit url '/').length - 1 - 1 = (jsSplit url '/').length - 2 := by
        omega
      rw [heq]
    · rw [if_neg h]
      have h0 : (jsSplit url '/').reverse.drop 1 = [] := by
        apply List.eq_nil_of_length_eq_zero
        simp only [List.length_drop, List.length_reverse]
        omega
      rw [h0]
      rfl
  · intro pd st
    have hrow : (migrateOnePokedex st (.ok pd)).pokedexEntries =
        (insertEntries pd.id pd.pokemon_entries st.pokedexEntries st.nextEntryId).1 := rfl
    constructor
    · rw [hrow, insertEntries_spec]
    · rw [hrow, insertEntries_spec]
      simp [entryRowsFrom_length]

/-- A sets batch whose rows all satisfy the NOT NULL constraint commits
fully. -/
theorem insertBatchE_sets_ok (ss : List SetInfo) :
    ∀ t : List (String × SetRow), (∀ s ∈ ss, s.name.isSome) →
      insertBatchE insertSetRowE ss t =
        .ok (ss.foldl (fun a s => upsertA s.id (normalizeSet s) a) t) := by
  induction ss with
  | nil => intro t _; rfl
  | cons s r ih =>
    intro t hall
    have hs : s.name.isSome := hall s (List.mem_cons_self s r)
    cases hn : s.name with
    | none => rw [hn] at hs; simp at hs
    | some nm =>
      have h1 : insertSetRowE s t = .ok (upsertA s.id (normalizeSet s) t) := by
        simp [insertSetRowE, hn]
      simp only [insertBatchE, h1]
      exact ih _ (fun x hx => hall x (List.mem_cons_of_mem s hx))

/-- A sets batch holding a row that violates the NOT NULL constraint makes
the batch throw. -/
theorem insertBatchE_sets_error (ss : List SetInfo) :
    ∀ t : List (String × SetRow), (∃ s ∈ ss, s.name = none) →
      ∃ e, insertBatchE insertSetRowE ss t = .error e := by
  induction ss with
  | nil =>
    intro t h
    obtain ⟨s, hs, _⟩ := h
    exact absurd hs (List.not_mem_nil s)
  | cons s r ih =>
    intro t h
    cases hn : s.name with
    | none =>
      refine ⟨"NOT NULL constraint failed: sets.name", ?_⟩
      simp [insertBatchE, insertSetRowE, hn]
    | some nm =>
      obtain ⟨x, hx, hxn⟩ := h
      rcases List.mem_cons.mp hx with rfl | hx2
      · rw [hn] at hxn
        exact absurd hxn (by simp)
      · have h1 : insertSetRowE s t = .ok (upsertA s.id (normalizeSet s) t) := by
          simp [insertSetRowE, hn]
        simp only [insertBatchE, h1]
        exact ih _ ⟨x, hx2, hxn⟩

/-- C4 counterexample: the pokedex-row inserts are not wrapped in any
transaction — when the second pokedex's row insert fails mid-batch, the
first pokedex's row stays committed, so a partially-written batch is
visible. -/
theorem C4_counterexample :
    insertPokedexRowE cexPokedexBad
        (migratePokedexesE [.ok cexPokedexGood] emptyPdxState).pokedexes =
      .error "NOT NULL constraint failed: pokedexes.name" ∧
    (migratePokedexesE [.ok cexPokedexGood, .ok cexPokedexBad] emptyPdxState).pokedexes =
      [(1, normalizePokedex cexPokedexGood)] ∧
    (migratePokedexesE [.ok cexPokedexGood, .ok cexPokedexBad] emptyPdxState).pokedexes ≠
      emptyPdxState.pokedexes := by
  refine ⟨rfl, by decide, by decide⟩

/-- C4 (amended): batches run through `db.transaction` (sets, cards, decks,
types, moves, abilities, species, and each single pokedex's entry batch)
are atomic — the caller observes either the untouched state or the fully
committed batch; shown generically for the transaction wrapper and
concretely for the sets batch.  The pokedexes kind is the exception: its
row inserts autocommit one by one (see the counterexample). -/
theorem C4_batch_atomicity :
    (∀ {α σ ε : Type} (ins : α → σ → Except ε σ) (xs : List α) (s : σ),
      (runTx ins xs s).1 = s ∨ insertBatchE ins xs s = .ok (runTx ins xs s).1) ∧
    (∀ (ss : List SetInfo) (t : List (String × SetRow)),
      ((∀ s ∈ ss, s.name.isSome) →
        runTx insertSetRowE ss t =
          (ss.foldl (fun a s => upsertA s.id (normalizeSet s) a) t, none)) ∧
      ((∃ s ∈ ss, s.name = none) → (runTx insertSetRowE ss t).1 = t)) := by
  constructor
  · intro α σ ε ins xs s
    unfold runTx
    cases h : insertBatchE ins xs s with
    | ok s1 => right; rfl
    | error e => left; rfl
  · intro ss t
    constructor
    · intro hall
      unfold runTx
      rw [insertBatchE_sets_ok ss t hall]
    · intro hex
      obtain ⟨e, he⟩ := insertBatchE_sets_error ss t hex
      unfold runTx
      rw [he]

/-- C4 witness: a fully valid sets batch commits whole; a batch whose second
row violates NOT NULL leaves the table untouched. -/
theorem C4_batch_atomicity_witness :
    runTx insertSetRowE [witSetGood] [] =
      ([witSetGood].foldl (fun a s => upsertA s.id (normalizeSet s) a) [], none) ∧
    (runTx insertSetRowE [witSetGood, witSetBad] []).1 = [] :=
  ⟨(C4_batch_atomicity.2 [witSetGood] []).1 (by decide),
   (C4_batch_atomicity.2 [witSetGood, witSetBad] []).2 ⟨witSetBad, by decide, rfl⟩⟩

/-- The nested per-row/per-number fold of `getPokemonGrouped` equals one
fold over the flattened (card, number) pairs. -/
theorem grouping_fold_flatten (sets : List SetRow) :
    ∀ (rows : List CardRow) (gs : List Grouping),
      rows.foldl
        (fun acc r =>
          let x := transformCardRow r (joinSet sets r)
          x.nationalPokedexNumbers.foldl (fun a n => addCardToGroup a x n) acc) gs =
      buildGroups gs (allPairs sets rows) := by
  intro rows
  induction rows with
  | nil => intro gs; rfl
  | cons r rest ih =>
    intro gs
    rw [List.foldl_cons, ih]
    have hsplit : allPairs sets (r :: rest) = rowPairs sets r ++ allPairs sets rest := rfl
    have happ : buildGroups gs (rowPairs sets r ++ allPairs sets rest) =
        buildGroups (buildGroups gs (rowPairs sets r)) (allPairs sets rest) := by
      unfold buildGroups
      rw [List.foldl_append]
    rw [hsplit, happ]
    congr 1
    show (transformCardRow r (joinSet sets r)).nationalPokedexNumbers.foldl
        (fun a n => addCardToGroup a (transformCardRow r (joinSet sets r)) n) gs =
      buildGroups gs (rowPairs sets r)
    unfold buildGroups rowPairs
    rw [List.foldl_map]
    rfl

/-- Membership in one row's pair list. -/
theorem mem_rowPairs (sets : List SetRow) (c : CardRow) (x : CardOut) (n : Nat) :
    (x, n) ∈ rowPairs sets c ↔
      n ∈ c.nationalPokedexNumbers ∧ x = transformCardRow c (joinSet sets c) := by
  unfold rowPairs
  constructor
  · intro h
    obtain ⟨m, hm, heq⟩ := List.mem_map.mp h
    rw [Prod.mk.injEq] at heq
    obtain ⟨h1, h2⟩ := heq
    subst h2
    exact ⟨hm, h1.symm⟩
  · rintro ⟨hn, rfl⟩
    exact List.mem_map_of_mem _ hn

/-- Membership in the flattened pair list. -/
theorem mem_allPairs (sets : List SetRow) (rows : List CardRow) (x : CardOut) (n : Nat) :
    (x, n) ∈ allPairs sets rows ↔
      ∃ c ∈ rows, n ∈ c.nationalPokedexNumbers ∧
        x = transformCardRow c (joinSet sets c) := by
  unfold allPairs
  rw [List.mem_flatMap]
  constructor
  · rintro ⟨c, hc, hp⟩
    exact ⟨c, hc, (mem_rowPairs sets c x n).mp hp⟩
  · rintro ⟨c, hc, h1, h2⟩
    exact ⟨c, hc, (mem_rowPairs sets c x n).mpr ⟨h1, h2⟩⟩

/-- A number occurs in the pair list iff some visited row carries it. -/
theorem exists_snd_allPairs (sets : List SetRow) (rows : List CardRow) (n : Nat) :
    (∃ p ∈ allPairs sets rows, p.2 = n) ↔
      ∃ c ∈ rows, n ∈ c.nationalPokedexNumbers := by
  constructor
  · rintro ⟨⟨x, m⟩, hp, rfl⟩
    obtain ⟨c, hc, hn, _⟩ := (mem_allPairs sets rows x m).mp hp
    exact ⟨c, hc, hn⟩
  · rintro ⟨c, hc, hn⟩
    exact ⟨(transformCardRow c (joinSet sets c), n),
      (mem_allPairs sets rows _ n).mpr ⟨c, hc, hn, rfl⟩, rfl⟩

/-- First pair carrying `n` within one row's pairs. -/
theorem find?_rowPairs (sets : List SetRow) (c : CardRow) (n : Nat) :
    (rowPairs sets c).find? (fun p => p.2 == n) =
      (if c.nationalPokedexNumbers.contains n
       then some (transformCardRow c (joinSet sets c), n) else none) := by
  unfold rowPairs
  suffices h : ∀ ns : List Nat,
      (ns.map (fun m => (transformCardRow c (joinSet sets c), m))).find?
          (fun p => p.2 == n) =
        (if ns.contains n
         then some (transformCardRow c (joinSet sets c), n) else none) by
    exact h _
  intro ns
  induction ns with
  | nil => rfl
  | cons m ms ih =>
    by_cases hm : m = n
    · subst hm
      rw [List.map_cons, List.find?_cons_of_pos _ (by simp)]
      simp
    · rw [List.map_cons, List.find?_cons_of_neg _ (by simp [hm]), ih]
      have hm2 : ¬(n = m) := fun hh => hm hh.symm
      simp [hm2]

/-- First pair carrying `n` in the whole scan corresponds to the first
visited row carrying `n`. -/
theorem find?_allPairs (sets : List SetRow) (n : Nat) :
    ∀ rows : List CardRow,
      (allPairs sets rows).find? (fun p => p.2 == n) =
        (rows.find? (fun c => c.nationalPokedexNumbers.contains n)).map
          (fun c => (transformCardRow c (joinSet sets c), n)) := by
  intro rows
  induction rows with
  | nil => rfl
  | cons c rest ih =>
    have hsplit : allPairs sets (c :: rest) = rowPairs sets c ++ allPairs sets rest := rfl
    rw [hsplit, List.find?_append]
    by_cases hc : c.nationalPokedexNumbers.contains n
    · have hfind : List.find? (fun d => d.nationalPokedexNumbers.contains n) (c :: rest) =
          some c := List.find?_cons_of_pos rest hc
      rw [find?_rowPairs, if_pos hc, hfind]
      rfl
    · have hfind : List.find? (fun d => d.nationalPokedexNumbers.contains n) (c :: rest) =
          List.find? (fun d => d.nationalPokedexNumbers.contains n) rest :=
        List.find?_cons_of_neg rest (by simpa using hc)
      rw [find?_rowPairs, if_neg hc, hfind, Option.none_or]
      exact ih

/-- The grouping invariant holds initially. -/
theorem groupInv_nil : GroupInv [] [] := by
  refine ⟨?_, ?_, ?_, ?_⟩
  · intro n
    simp
  · simp
  · intro g hg
    simp at hg
  · intro g hg
    simp at hg

/-- Key of the in-place group update. -/
theorem addCard_upd_key (x : CardOut) (n : Nat) (g : Grouping) :
    ((if g.nationalPokedexNumber == n
      then { g with cards := g.cards ++ [x] } else g) : Grouping).nationalPokedexNumber =
      g.nationalPokedexNumber := by
  by_cases hg : g.nationalPokedexNumber == n <;> simp [hg]

/-- One step of the grouping fold preserves the invariant. -/
theorem groupInv_step (ps : List (CardOut × Nat)) (gs : List Grouping)
    (x : CardOut) (n : Nat) (h : GroupInv ps gs) :
    GroupInv (ps ++ [(x, n)]) (addCardToGroup gs x n) := by
  obtain ⟨h1, h2, h3, h4⟩ := h
  unfold addCardToGroup
  by_cases hany : gs.any (fun g => g.nationalPokedexNumber == n) = true
  · rw [if_pos hany]
    refine ⟨?_, ?_, ?_, ?_⟩
    · intro m
      constructor
      · rintro ⟨g', hg', hkm⟩
        obtain ⟨g, hg, hgeq⟩ := List.mem_map.mp hg'
        rw [← hgeq, addCard_upd_key] at hkm
        obtain ⟨p, hp, hpm⟩ := (h1 m).mp ⟨g, hg, hkm⟩
        exact ⟨p, List.mem_append_left _ hp, hpm⟩
      · rintro ⟨p, hp, hpm⟩
        rcases List.mem_append.mp hp with hp1 | hp2
        · obtain ⟨g, hg, hkm⟩ := (h1 m).mpr ⟨p, hp1, hpm⟩
          refine ⟨_, List.mem_map_of_mem _ hg, ?_⟩
          rw [addCard_upd_key]
          exact hkm
        · have hpx : p = (x, n) := List.mem_singleton.mp hp2
          obtain ⟨g, hg, hgn⟩ := List.any_eq_true.mp hany
          refine ⟨_, List.mem_map_of_mem _ hg, ?_⟩
          rw [addCard_upd_key]
          have hgn2 : g.nationalPokedexNumber = n := by simpa using hgn
          rw [hgn2, ← hpm, hpx]
    · have hmm :
          ((gs.map (fun g =>
              if g.nationalPokedexNumber == n
              then { g with cards := g.cards ++ [x] } else g)).map
            (fun g => g.nationalPokedexNumber)) =
            gs.map (fun g => g.nationalPokedexNumber) := by
        rw [List.map_map]
        exact List.map_congr_left (fun g _ => addCard_upd_key x n g)
      rw [hmm]
      exact h2
    · intro g' hg' y
      obtain ⟨g, hg, hgeq⟩ := List.mem_map.mp hg'
      subst hgeq
      by_cases hgn : g.nationalPokedexNumber == n
      · rw [if_pos hgn]
        have hgn2 : g.nationalPokedexNumber = n := by simpa using hgn
        constructor
        · intro hy
          rcases List.mem_append.mp hy with hy1 | hy2
          · exact List.mem_append_left _ ((h3 g hg y).mp hy1)
          · have hyx : y = x := List.mem_singleton.mp hy2
            subst hyx
            apply List.mem_append_right
            simp [hgn2]
        · intro hy
          rcases List.mem_append.mp hy with hp1 | hp2
          · exact List.mem_append_left _ ((h3 g hg y).mpr hp1)
          · have hp : (y, g.nationalPokedexNumber) = (x, n) := List.mem_singleton.mp hp2
            rw [Prod.mk.injEq] at hp
            apply List.mem_append_right
            simp [hp.1]
      · rw [if_neg hgn]
        have hne : g.nationalPokedexNumber ≠ n := by simpa using hgn
        constructor
        · intro hy
          exact List.mem_append_left _ ((h3 g hg y).mp hy)
        · intro hy
          rcases List.mem_append.mp hy with hp1 | hp2
          · exact (h3 g hg y).mpr hp1
          · exfalso
            have hp : (y, g.nationalPokedexNumber) = (x, n) := List.mem_singleton.mp hp2
            rw [Prod.mk.injEq] at hp
            exact hne hp.2
    · intro g' hg'
      obtain ⟨g, hg, hgeq⟩ := List.mem_map.mp hg'
      subst hgeq
      obtain ⟨c0, hf, hname⟩ := h4 g hg
      by_cases hgn : g.nationalPokedexNumber == n
      · rw [if_pos hgn]
        refine ⟨c0, ?_, hname⟩
        show List.find? (fun p => p.2 == g.nationalPokedexNumber) (ps ++ [(x, n)]) =
          some (c0, g.nationalPokedexNumber)
        rw [List.find?_append, hf]
        rfl
      · rw [if_neg hgn]
        refine ⟨c0, ?_, hname⟩
        rw [List.find?_append, hf]
        rfl
  · rw [if_neg hany]
    have hnone : ∀ g ∈ gs, g.nationalPokedexNumber ≠ n := by
      intro g hg hgn
      exact hany (List.any_eq_true.mpr ⟨g, hg, by simp [hgn]⟩)
    have hpn : ¬∃ p ∈ ps, p.2 = n := by
      intro hex
      obtain ⟨g, hg, hgn⟩ := (h1 n).mpr hex
      exact hnone g hg hgn
    refine ⟨?_, ?_, ?_, ?_⟩
    · intro m
      constructor
      · rintro ⟨g', hg', hkm⟩
        rcases List.mem_append.mp hg' with hg1 | hg2
        · obtain ⟨p, hp, hpm⟩ := (h1 m).mp ⟨g', hg1, hkm⟩
          exact ⟨p, List.mem_append_left _ hp, hpm⟩
        · have hgnew : g' = ⟨n, x.name, [x]⟩ := List.mem_singleton.mp hg2
          refine ⟨(x, n), List.mem_append_right _ (List.mem_singleton.mpr rfl), ?_⟩
          rw [← hkm, hgnew]
      · rintro ⟨p, hp, hpm⟩
        rcases List.mem_append.mp hp with hp1 | hp2
        · obtain ⟨g, hg, hkm⟩ := (h1 m).mpr ⟨p, hp1, hpm⟩
          exact ⟨g, List.mem_append_left _ hg, hkm⟩
        · have hpx : p = (x, n) := List.mem_singleton.mp hp2
          refine ⟨⟨n, x.name, [x]⟩,
            List.mem_append_right _ (List.mem_singleton.mpr rfl), ?_⟩
          rw [← hpm, hpx]
    · rw [List.map_append, List.nodup_append]
      refine ⟨h2, by simp, ?_⟩
      intro a ha hb
      simp at hb
      obtain ⟨g, hg, hgky⟩ := List.mem_map.mp ha
      exact hnone g hg (by rw [hgky, hb])
    · intro g' hg' y
      rcases List.mem_append.mp hg' with hg1 | hg2
      · constructor
        · intro hy
          exact List.mem_append_left _ ((h3 g' hg1 y).mp hy)
        · intro hy
          rcases List.mem_append.mp hy with hp1 | hp2
          · exact (h3 g' hg1 y).mpr hp1
          · exfalso
            have hp : (y, g'.nationalPokedexNumber) = (x, n) := List.mem_singleton.mp hp2
            rw [Prod.mk.injEq] at hp
            exact hnone g' hg1 hp.2
      · have hgnew : g' = ⟨n, x.name, [x]⟩ := List.mem_singleton.mp hg2
        subst hgnew
        constructor
        · intro hy
          have hyx : y = x := List.mem_singleton.mp hy
          subst hyx
          exact List.mem_append_right _ (List.mem_singleton.mpr rfl)
        · intro hy
          rcases List.mem_append.mp hy with hp1 | hp2
          · exact absurd ⟨(y, n), hp1, rfl⟩ hpn
          · have hp : ((y, n) : CardOut × Nat) = (x, n) := List.mem_singleton.mp hp2
            rw [Prod.mk.injEq] at hp
            exact List.mem_singleton.mpr hp.1
    · intro g' hg'
      rcases List.mem_append.mp hg' with hg1 | hg2
      · obtain ⟨c0, hf, hname⟩ := h4 g' hg1
        refine ⟨c0, ?_, hname⟩
        rw [List.find?_append, hf]
        rfl
      · have hgnew : g' = ⟨n, x.name, [x]⟩ := List.mem_singleton.mp hg2
        subst hgnew
        refine ⟨x, ?_, rfl⟩
        have hf0 : ps.find? (fun p => p.2 == n) = none := by
          rw [List.find?_eq_none]
          intro p hp hbeq
          exact hpn ⟨p, hp, by simpa using hbeq⟩
        show List.find? (fun p => p.2 == n) (ps ++ [(x, n)]) = some (x, n)
        rw [List.find?_append, hf0, Option.none_or]
        exact List.find?_cons_of_pos _ (by simp)

/-- The grouping fold preserves the invariant over any pair sequence. -/
theorem groupInv_fold :
    ∀ (qs ps : List (CardOut × Nat)) (gs : List Grouping),
      GroupInv ps gs → GroupInv (ps ++ qs) (buildGroups gs qs) := by
  intro qs
  induction qs with
  | nil =>
    intro ps gs h
    simpa using h
  | cons q rest ih =>
    intro ps gs h
    have hstep := groupInv_step ps gs q.1 q.2 h
    have hps : ps ++ q :: rest = (ps ++ [q]) ++ rest := by simp
    rw [hps]
    exact ih (ps ++ [q]) (addCardToGroup gs q.1 q.2) hstep

/-- The invariant holds for the full scan. -/
theorem groupInv_allPairs (sets : List SetRow) (rows : List CardRow) :
    GroupInv (allPairs sets rows) (buildGroups [] (allPairs sets rows)) := by
  have h := groupInv_fold (allPairs sets rows) [] [] groupInv_nil
  simpa using h

/-- The visited rows are exactly the stored cards carrying at least one
reference number. -/
theorem mem_visitedRows (cards : List CardRow) (c : CardRow) :
    c ∈ visitedRows cards ↔ c ∈ cards ∧ c.nationalPokedexNumbers ≠ [] := by
  unfold visitedRows
  rw [(List.perm_insertionSort _ _).mem_iff, List.mem_filter]
  simp

/-- C5: the reference-number grouping query visits exactly the cards having
at least one reference number and produces one group per distinct reference
number, whose member list holds exactly the (enriched) cards carrying that
number — so a card with N numbers belongs to N groups — whose name is the
name of the first-seen card for that number, with the groups ordered
ascending by reference number. -/
theorem C5_reference_grouping (cards : List CardRow) (sets : List SetRow) :
    (∀ c : CardRow, c ∈ visitedRows cards ↔
      c ∈ cards ∧ c.nationalPokedexNumbers ≠ []) ∧
    (∀ n : Nat,
      (∃ g ∈ getPokemonGrouped cards sets, g.nationalPokedexNumber = n) ↔
      ∃ c ∈ visitedRows cards, n ∈ c.nationalPokedexNumbers) ∧
    ((getPokemonGrouped cards sets).map (fun g => g.nationalPokedexNumber)).Nodup ∧
    (∀ g ∈ getPokemonGrouped cards sets, ∀ x : CardOut,
      x ∈ g.cards ↔ ∃ c ∈ visitedRows cards,
        g.nationalPokedexNumber ∈ c.nationalPokedexNumbers ∧
        x = transformCardRow c (joinSet sets c)) ∧
    (∀ g ∈ getPokemonGrouped cards sets, ∃ c0 : CardRow,
      (visitedRows cards).find?
          (fun c => c.nationalPokedexNumbers.contains g.nationalPokedexNumber) =
        some c0 ∧
      g.name = c0.name) ∧
    List.Pairwise (fun a b => a.nationalPokedexNumber ≤ b.nationalPokedexNumber)
      (getPokemonGrouped cards sets) := by
  obtain ⟨i1, i2, i3, i4⟩ := groupInv_allPairs sets (visitedRows cards)
  have hdef : getPokemonGrouped cards sets =
      List.insertionSort (fun a b => a.nationalPokedexNumber ≤ b.nationalPokedexNumber)
        (buildGroups [] (allPairs sets (visitedRows cards))) := by
    unfold getPokemonGrouped
    rw [grouping_fold_flatten]
  have hperm : (getPokemonGrouped cards sets).Perm
      (buildGroups [] (allPairs sets (visitedRows cards))) := by
    rw [hdef]
    exact List.perm_insertionSort _ _
  refine ⟨?_, ?_, ?_, ?_, ?_, ?_⟩
  · intro c
    exact mem_visitedRows cards c
  · intro n
    constructor
    · rintro ⟨g, hg, hkn⟩
      obtain ⟨p, hp, hpn⟩ := (i1 n).mp ⟨g, hperm.mem_iff.mp hg, hkn⟩
      exact (exists_snd_allPairs sets (visitedRows cards) n).mp ⟨p, hp, hpn⟩
    · intro hex
      obtain ⟨p, hp, hpn⟩ := (exists_snd_allPairs sets (visitedRows cards) n).mpr hex
      obtain ⟨g, hg0, hkn⟩ := (i1 n).mpr ⟨p, hp, hpn⟩
      exact ⟨g, hperm.mem_iff.mpr hg0, hkn⟩
  · exact (List.Perm.map (fun g => g.nationalPokedexNumber) hperm).nodup_iff.mpr i2
  · intro g hg y
    rw [i3 g (hperm.mem_iff.mp hg) y]
    exact mem_allPairs sets (visitedRows cards) y g.nationalPokedexNumber
  · intro g hg
    obtain ⟨c0out, hf, hname⟩ := i4 g (hperm.mem_iff.mp hg)
    rw [find?_allPairs] at hf
    cases hrow : (visitedRows cards).find?
        (fun c => c.nationalPokedexNumbers.contains g.nationalPokedexNumber) with
    | none =>
      rw [hrow] at hf
      simp at hf
    | some c0 =>
      rw [hrow] at hf
      have hf2 : transformCardRow c0 (joinSet sets c0) = c0out := by
        simpa using hf
      refine ⟨c0, rfl, ?_⟩
      rw [hname, ← hf2]
      rfl
  · rw [hdef]
    exact List.sorted_insertionSort _ _

/-- C5 witness: a card indexed under 25 and 26 creates (and populates) both
groups. -/
theorem C5_reference_grouping_witness :
    (∃ g ∈ getPokemonGrouped [demoCardRow1, demoCardRow2] [],
      g.nationalPokedexNumber = 25) ∧
    (∃ g ∈ getPokemonGrouped [demoCardRow1, demoCardRow2] [],
      g.nationalPokedexNumber = 26) :=
  ⟨((C5_reference_grouping [demoCardRow1, demoCardRow2] []).2.1 25).mpr
      ⟨demoCardRow1, by decide, by decide⟩,
   ((C5_reference_grouping [demoCardRow1, demoCardRow2] []).2.1 26).mpr
      ⟨demoCardRow1, by decide, by decide⟩⟩
